import Mathlib

/-!
# Verification of the aggregate-consistency and query-composition core

Shallow embedding of the service/CRUD layer of a B2B account-management API
(`app/crud.py`, `app/main.py`, `app/models.py`, `app/schemas.py`).

Modelling conventions:
* The relational store is a `DB`: the `businesses` and `services` tables as
  lists of rows, plus the store-assigned auto-increment counter for
  `services.id`.
* Python `float` money amounts are modelled as exact rationals (`Rat`);
  `datetime` values are opaque strings; the schema-less JSON `details`
  payload is an opaque association list.  Store-managed timestamp columns
  (`created_at`, `updated_at`) carry no logic in the code and are omitted.
* SQL `UPDATE`/`DELETE ... WHERE pk = x` acts on the single row found by the
  primary-key lookup (`.first()` in the code); this is embedded as
  replace/remove-first-match on the row list.
* A failed store write (constraint violation) makes the enclosing commit
  raise, so the corresponding operation returns `none` / a failure result
  and no state change.
-/

namespace BellApi

/-- Row of the `businesses` table (`app/models.py`, class `Business`). -/
structure Business where
  id : String
  company_name : String
  industry : String
  employee_count : Int
  annual_revenue : Rat
  street_number : Int
  street_name : String
  city : String
  province : String
  postal_code : String
  country : String
  phone : String
  email : String
  website : String
  bell_customer_since : String
  account_manager : String
  total_monthly_revenue : Rat
  payment_method : String
  account_status : String
  last_contact_date : String
  notes : String
deriving DecidableEq, Repr

/-- Row of the `services` table (`app/models.py`, class `Service`). -/
structure Service where
  id : Nat
  business_id : String
  service_type : String
  service_name : String
  monthly_price : Rat
  details : List (String × String)
  contract_start : String
  contract_end : String
  status : String
deriving DecidableEq, Repr

/-- The relational store: both tables plus the auto-increment counter that
the store uses to assign `services.id`. -/
structure DB where
  businesses : List Business
  services : List Service
  next_service_id : Nat
deriving DecidableEq, Repr

/-- `schemas.ServiceCreate` (= `ServiceBase`): creation payload for a service. -/
structure ServiceCreate where
  service_type : String
  service_name : String
  monthly_price : Rat
  details : List (String × String)
  contract_start : String
  contract_end : String
  status : String
deriving DecidableEq, Repr

/-- `schemas.BusinessCreate` = `BusinessBase` plus an initial service list.
Note: the schema declares NO `id` field. -/
structure BusinessCreate where
  company_name : String
  industry : String
  employee_count : Int
  annual_revenue : Rat
  street_number : Int
  street_name : String
  city : String
  province : String
  postal_code : String
  country : String
  phone : String
  email : String
  website : String
  bell_customer_since : String
  account_manager : String
  payment_method : String
  account_status : String
  last_contact_date : String
  notes : String
  services : List ServiceCreate
deriving DecidableEq, Repr

/-- `schemas.BusinessUpdate`: every field optional; `none` = field absent from
the partial-update payload (`dict(exclude_unset=True)` skips it).  The schema
has no `id` and no `total_monthly_revenue` field. -/
structure BusinessUpdate where
  company_name : Option String := none
  industry : Option String := none
  employee_count : Option Int := none
  annual_revenue : Option Rat := none
  street_number : Option Int := none
  street_name : Option String := none
  city : Option String := none
  province : Option String := none
  postal_code : Option String := none
  country : Option String := none
  phone : Option String := none
  email : Option String := none
  website : Option String := none
  bell_customer_since : Option String := none
  account_manager : Option String := none
  payment_method : Option String := none
  account_status : Option String := none
  last_contact_date : Option String := none
  notes : Option String := none
deriving DecidableEq, Repr

/-- The raw, unvalidated field mapping accepted by `crud.update_service`
(`service_update: dict`); any column of the `services` table may appear,
including the owning `business_id` and the primary key `id`
(blanket `setattr`, see the open question in the design notes). -/
structure ServiceUpdate where
  id : Option Nat := none
  business_id : Option String := none
  service_type : Option String := none
  service_name : Option String := none
  monthly_price : Option Rat := none
  details : Option (List (String × String)) := none
  contract_start : Option String := none
  contract_end : Option String := none
  status : Option String := none
deriving DecidableEq, Repr

/-! ## Query builder (`crud.get_businesses`, `get_businesses_count`,
`get_services`, single-row lookups) -/

/-- Python truthiness of an optional string parameter: a filter is applied
iff the value is neither `None` nor the empty string (`if search:`). -/
def optActive : Option String → Bool
  | none => false
  | some s => !(s == "")

/-- Boolean prefix test on char lists (used to embed SQL `ILIKE '%x%'`). -/
def isPrefixLC : List Char → List Char → Bool
  | [], _ => true
  | _ :: _, [] => false
  | a :: as, b :: bs => a == b && isPrefixLC as bs

/-- Boolean infix test on char lists. -/
def isInfixLC : List Char → List Char → Bool
  | nd, [] => nd.isEmpty
  | nd, c :: cs => isPrefixLC nd (c :: cs) || isInfixLC nd cs

/-- Case-insensitive substring containment: `hay ILIKE '%needle%'`. -/
def ilikeContains (hay needle : String) : Bool :=
  isInfixLC (needle.toList.map Char.toLower) (hay.toList.map Char.toLower)

/-- The `search` disjunction of `get_businesses`: case-insensitive substring
match against company name OR email OR phone. -/
def searchMatches (s : String) (b : Business) : Bool :=
  ilikeContains b.company_name s || ilikeContains b.email s || ilikeContains b.phone s

/-- The composed filter predicate of `crud.get_businesses` /
`get_businesses_count`: each filter is applied only when truthy (non-`None`,
non-empty), and present filters are combined by AND. -/
def businessMatches (search industry province city account_status : Option String)
    (b : Business) : Bool :=
  (if optActive search then searchMatches (search.getD "") b else true) &&
  (if optActive industry then b.industry == industry.getD "" else true) &&
  (if optActive province then b.province == province.getD "" else true) &&
  (if optActive city then b.city == city.getD "" else true) &&
  (if optActive account_status then b.account_status == account_status.getD "" else true)

/-- `crud.get_businesses`: filter, then `OFFSET skip LIMIT limit`. -/
def get_businesses (db : DB) (skip limit : Nat)
    (search industry province city account_status : Option String) : List Business :=
  (((db.businesses.filter
      (businessMatches search industry province city account_status)).drop skip).take limit)

/-- `crud.get_businesses_count`: same filters, `COUNT(*)`, no pagination. -/
def get_businesses_count (db : DB)
    (search industry province city account_status : Option String) : Nat :=
  (db.businesses.filter (businessMatches search industry province city account_status)).length

/-- The composed filter predicate of `crud.get_services`. -/
def serviceMatches (service_type status business_id : Option String) (s : Service) : Bool :=
  (if optActive service_type then s.service_type == service_type.getD "" else true) &&
  (if optActive status then s.status == status.getD "" else true) &&
  (if optActive business_id then s.business_id == business_id.getD "" else true)

/-- `crud.get_services`: filter, then `OFFSET skip LIMIT limit`. -/
def get_services (db : DB) (skip limit : Nat)
    (service_type status business_id : Option String) : List Service :=
  (((db.services.filter (serviceMatches service_type status business_id)).drop skip).take limit)

/-- `crud.get_business`: primary-key lookup, first matching row. -/
def get_business (db : DB) (business_id : String) : Option Business :=
  db.businesses.find? (fun b => b.id == business_id)

/-- `crud.get_service`: primary-key lookup, first matching row. -/
def get_service (db : DB) (service_id : Nat) : Option Service :=
  db.services.find? (fun s => s.id == service_id)

/-- `crud.get_services_by_business`. -/
def get_services_by_business (db : DB) (business_id : String) : List Service :=
  db.services.filter (fun s => s.business_id == business_id)

/-! ## Revenue reconciler and service-layer mutations -/

/-- `SELECT SUM(monthly_price) FROM services WHERE business_id = bid`, with
`scalar() or 0.0` turning the empty-set `NULL` into `0.0`. -/
def servicesSum (services : List Service) (bid : String) : Rat :=
  ((services.filter (fun s => s.business_id == bid)).map (fun s => s.monthly_price)).sum

/-- Replace the first business row whose `id` is `bid` (the row found by the
primary-key lookup in the code). -/
def updateFirstBusiness (bid : String) (f : Business → Business) :
    List Business → List Business
  | [] => []
  | b :: bs => if b.id == bid then f b :: bs else b :: updateFirstBusiness bid f bs

/-- Replace the first service row whose `id` is `sid`. -/
def updateFirstService (sid : Nat) (f : Service → Service) : List Service → List Service
  | [] => []
  | s :: ss => if s.id == sid then f s :: ss else s :: updateFirstService sid f ss

/-- Remove the first business row whose `id` is `bid`. -/
def removeFirstBusiness (bid : String) : List Business → List Business
  | [] => []
  | b :: bs => if b.id == bid then bs else b :: removeFirstBusiness bid bs

/-- Remove the first service row whose `id` is `sid`. -/
def removeFirstService (sid : Nat) : List Service → List Service
  | [] => []
  | s :: ss => if s.id == sid then ss else s :: removeFirstService sid ss

/-- `crud.update_business_revenue`: recompute the owning business's
`total_monthly_revenue` from the full current service set; no-op when the
business no longer exists. -/
def update_business_revenue (db : DB) (bid : String) : DB :=
  let total := servicesSum db.services bid
  let bs := updateFirstBusiness bid
    (fun b => { b with total_monthly_revenue := total }) db.businesses
  { db with businesses := bs }

/-- The business row built by `crud.create_business`: field-by-field copy of
the payload, with `total_monthly_revenue` precomputed as the sum of the
provided services' prices, persisted under the resolved identifier `bid`. -/
def newBusinessRow (bid : String) (p : BusinessCreate) : Business :=
  { id := bid
    company_name := p.company_name
    industry := p.industry
    employee_count := p.employee_count
    annual_revenue := p.annual_revenue
    street_number := p.street_number
    street_name := p.street_name
    city := p.city
    province := p.province
    postal_code := p.postal_code
    country := p.country
    phone := p.phone
    email := p.email
    website := p.website
    bell_customer_since := p.bell_customer_since
    account_manager := p.account_manager
    total_monthly_revenue := (p.services.map (fun s => s.monthly_price)).sum
    payment_method := p.payment_method
    account_status := p.account_status
    last_contact_date := p.last_contact_date
    notes := p.notes }

/-- The service row built from a creation payload, owned by `bid`, with the
store-assigned integer key `sid`. -/
def newServiceRow (bid : String) (sid : Nat) (sc : ServiceCreate) : Service :=
  { id := sid
    business_id := bid
    service_type := sc.service_type
    service_name := sc.service_name
    monthly_price := sc.monthly_price
    details := sc.details
    contract_start := sc.contract_start
    contract_end := sc.contract_end
    status := sc.status }

/-- First transactional unit of `crud.create_business` (`db.add(db_business)`
then the first `db.commit()`): the business row alone is committed; no
service row exists yet. -/
def create_business_commit1 (bid : String) (p : BusinessCreate) (db : DB) : DB :=
  { db with businesses := db.businesses ++ [newBusinessRow bid p] }

/-- The service-insertion loop of `crud.create_business` (committed as the
second transactional unit): each payload service is added under the new
business's identifier, receiving sequential store-assigned keys. -/
def appendServices (bid : String) : List ServiceCreate → DB → DB
  | [], db => db
  | sc :: rest, db =>
      appendServices bid rest
        { db with
          services := db.services ++ [newServiceRow bid db.next_service_id sc],
          next_service_id := db.next_service_id + 1 }

/-- `crud.create_business`.  The code resolves the identifier as
`business.id if hasattr(business, 'id') else None`; `rid` is that resolved
value (`schemas.BusinessCreate` declares no `id` field, so in the deployed
composition `rid = none` — see `create_business_route`).  Inserting a `NULL`
primary key, or a duplicate one, violates the `businesses.id` constraint: the
first commit raises and nothing is persisted (`none`).  Otherwise the
business row is committed first and the initial services second. -/
def create_business (db : DB) (rid : Option String) (p : BusinessCreate) : Option DB :=
  match rid with
  | none => none
  | some bid =>
      if (get_business db bid).isSome then none
      else some (appendServices bid p.services (create_business_commit1 bid p db))

/-- First transactional unit of `crud.create_service`: the service row is
committed; the owner's revenue is not yet reconciled. -/
def create_service_commit1 (db : DB) (sc : ServiceCreate) (bid : String) : Service × DB :=
  let row := newServiceRow bid db.next_service_id sc
  (row, { db with services := db.services ++ [row],
                  next_service_id := db.next_service_id + 1 })

/-- `crud.create_service`: insert the row (first commit), then reconcile the
owning business's revenue (second commit). -/
def create_service (db : DB) (sc : ServiceCreate) (bid : String) : Service × DB :=
  let r := create_service_commit1 db sc bid
  (r.1, update_business_revenue r.2 bid)

/-- The `setattr` loop of `crud.update_service`: every field present in the
unvalidated mapping overwrites the row's column, including `business_id`
and `id`. -/
def applyServiceUpdate (u : ServiceUpdate) (s : Service) : Service :=
  { id := u.id.getD s.id
    business_id := u.business_id.getD s.business_id
    service_type := u.service_type.getD s.service_type
    service_name := u.service_name.getD s.service_name
    monthly_price := u.monthly_price.getD s.monthly_price
    details := u.details.getD s.details
    contract_start := u.contract_start.getD s.contract_start
    contract_end := u.contract_end.getD s.contract_end
    status := u.status.getD s.status }

/-- First transactional unit of `crud.update_service` on the row found by
`get_service`: the field mapping is applied and committed; revenue is not
yet reconciled.  `none` when the service does not exist. -/
def update_service_commit1 (db : DB) (sid : Nat) (u : ServiceUpdate) :
    Option (Service × DB) :=
  match get_service db sid with
  | none => none
  | some s =>
      let s2 := applyServiceUpdate u s
      some (s2, { db with services := updateFirstService sid (fun _ => s2) db.services })

/-- `crud.update_service`: apply the mapping (first commit), then reconcile
the revenue of `db_service.business_id` as read AFTER the update — i.e. of
the new owner if the mapping reassigned `business_id`. -/
def update_service (db : DB) (sid : Nat) (u : ServiceUpdate) : Option (Service × DB) :=
  match update_service_commit1 db sid u with
  | none => none
  | some (s2, db1) => some (s2, update_business_revenue db1 s2.business_id)

/-- First transactional unit of `crud.delete_service`: the row is deleted and
committed; revenue is not yet reconciled.  `(false, db)` when absent. -/
def delete_service_commit1 (db : DB) (sid : Nat) : Bool × String × DB :=
  match get_service db sid with
  | none => (false, "", db)
  | some s =>
      (true, s.business_id, { db with services := removeFirstService sid db.services })

/-- `crud.delete_service`: delete the row (first commit), then reconcile the
former owner's revenue (second commit). -/
def delete_service (db : DB) (sid : Nat) : Bool × DB :=
  match delete_service_commit1 db sid with
  | (false, _, db1) => (false, db1)
  | (true, bid, db1) => (true, update_business_revenue db1 bid)

/-- The `setattr` loop of `crud.update_business` over
`dict(exclude_unset=True)`: only fields present in the payload are applied;
`id` and `total_monthly_revenue` are not in the schema, hence untouched. -/
def applyBusinessUpdate (u : BusinessUpdate) (b : Business) : Business :=
  { id := b.id
    company_name := u.company_name.getD b.company_name
    industry := u.industry.getD b.industry
    employee_count := u.employee_count.getD b.employee_count
    annual_revenue := u.annual_revenue.getD b.annual_revenue
    street_number := u.street_number.getD b.street_number
    street_name := u.street_name.getD b.street_name
    city := u.city.getD b.city
    province := u.province.getD b.province
    postal_code := u.postal_code.getD b.postal_code
    country := u.country.getD b.country
    phone := u.phone.getD b.phone
    email := u.email.getD b.email
    website := u.website.getD b.website
    bell_customer_since := u.bell_customer_since.getD b.bell_customer_since
    account_manager := u.account_manager.getD b.account_manager
    total_monthly_revenue := b.total_monthly_revenue
    payment_method := u.payment_method.getD b.payment_method
    account_status := u.account_status.getD b.account_status
    last_contact_date := u.last_contact_date.getD b.last_contact_date
    notes := u.notes.getD b.notes }

/-- `crud.update_business`: partial update of the row found by the
primary-key lookup; `none` (no store change) when absent. -/
def update_business (db : DB) (bid : String) (u : BusinessUpdate) :
    Option (Business × DB) :=
  match get_business db bid with
  | none => none
  | some b =>
      let b2 := applyBusinessUpdate u b
      some (b2, { db with businesses := updateFirstBusiness bid (fun _ => b2) db.businesses })

/-- `crud.delete_business`: delete the row found by the primary-key lookup;
the ORM relationship cascade (`cascade="all, delete-orphan"`,
`app/models.py`) deletes every service row referencing that identifier in
the same unit.  `(false, db)` when absent. -/
def delete_business (db : DB) (bid : String) : Bool × DB :=
  match get_business db bid with
  | none => (false, db)
  | some _ =>
      (true, { db with
        businesses := removeFirstBusiness bid db.businesses,
        services := db.services.filter (fun s => !(s.business_id == bid)) })

/-- The revenue invariant of the specification: every business row's
`total_monthly_revenue` equals the sum of `monthly_price` over the service
rows whose `business_id` equals its `id` (`0` when it owns none). -/
def revenueInvariant (db : DB) : Prop :=
  ∀ b ∈ db.businesses, b.total_monthly_revenue = servicesSum db.services b.id

instance (db : DB) : Decidable (revenueInvariant db) :=
  inferInstanceAs (Decidable (∀ b ∈ db.businesses, _))

/-! ## Analytics aggregator (`crud.get_revenue_analytics`,
`crud.get_customer_analytics`, `main.get_analytics_summary`) -/

/-- `SELECT key, SUM(val) ... GROUP BY key`, materialised as an association
list over the distinct keys in row order. -/
def groupSumBy {α : Type} (key : α → String) (val : α → Rat) (rows : List α) :
    List (String × Rat) :=
  ((rows.map key).dedup).map
    (fun k => (k, ((rows.filter (fun r => key r == k)).map val).sum))

/-- `SELECT key, COUNT(*) ... GROUP BY key`. -/
def groupCountBy {α : Type} (key : α → String) (rows : List α) : List (String × Nat) :=
  ((rows.map key).dedup).map (fun k => (k, (rows.filter (fun r => key r == k)).length))

/-- Result shape of `crud.get_revenue_analytics`. -/
structure RevenueAnalytics where
  total_monthly_revenue : Rat
  average_monthly_revenue : Rat
  revenue_by_industry : List (String × Rat)
  revenue_by_province : List (String × Rat)
  revenue_by_service_type : List (String × Rat)
deriving DecidableEq, Repr

/-- `crud.get_revenue_analytics`.  `SUM`/`AVG` over zero rows yield SQL
`NULL`, which `scalar() or 0.0` turns into `0.0`; `AVG` over `n > 0` rows is
the sum divided by `n`. -/
def get_revenue_analytics (db : DB) : RevenueAnalytics :=
  { total_monthly_revenue := (db.businesses.map (fun b => b.total_monthly_revenue)).sum
    average_monthly_revenue :=
      if db.businesses.isEmpty then 0
      else (db.businesses.map (fun b => b.total_monthly_revenue)).sum / db.businesses.length
    revenue_by_industry :=
      groupSumBy (fun b => b.industry) (fun b => b.total_monthly_revenue) db.businesses
    revenue_by_province :=
      groupSumBy (fun b => b.province) (fun b => b.total_monthly_revenue) db.businesses
    revenue_by_service_type :=
      groupSumBy (fun s => s.service_type) (fun s => s.monthly_price) db.services }

/-- Result shape of `crud.get_customer_analytics`. -/
structure CustomerAnalytics where
  total_customers : Nat
  customers_by_industry : List (String × Nat)
  customers_by_province : List (String × Nat)
  customers_by_status : List (String × Nat)
  average_services_per_customer : Rat
deriving DecidableEq, Repr

/-- `crud.get_customer_analytics`.  The average is guarded:
`total_services / total_customers if total_customers > 0 else 0`. -/
def get_customer_analytics (db : DB) : CustomerAnalytics :=
  { total_customers := db.businesses.length
    customers_by_industry := groupCountBy (fun b => b.industry) db.businesses
    customers_by_province := groupCountBy (fun b => b.province) db.businesses
    customers_by_status := groupCountBy (fun b => b.account_status) db.businesses
    average_services_per_customer :=
      if db.businesses.length > 0
      then (db.services.length : Rat) / (db.businesses.length : Rat)
      else 0 }

/-- The `summary` object of `main.get_analytics_summary`. -/
structure AnalyticsSummary where
  total_customers : Nat
  total_monthly_revenue : Rat
  average_revenue_per_customer : Rat
deriving DecidableEq, Repr

/-- `main.get_analytics_summary`: recomputes both snapshots and derives
`average_revenue_per_customer`, guarded to `0` when there are no customers. -/
def get_analytics_summary (db : DB) : AnalyticsSummary :=
  let revenue := get_revenue_analytics db
  let customers := get_customer_analytics db
  { total_customers := customers.total_customers
    total_monthly_revenue := revenue.total_monthly_revenue
    average_revenue_per_customer :=
      if customers.total_customers > 0
      then revenue.total_monthly_revenue / (customers.total_customers : Rat)
      else 0 }

/-! ## Endpoint layer (`app/main.py`) -/

/-- Response shape of `main.read_businesses`. -/
structure BusinessList where
  businesses : List Business
  total : Nat
  page : Nat
  size : Nat
  pages : Nat
deriving DecidableEq, Repr

/-- Response shape of `main.read_services`. -/
structure ServiceList where
  services : List Service
  total : Nat
  page : Nat
  size : Nat
  pages : Nat
deriving DecidableEq, Repr

/-- `math.ceil(total / limit)` for natural `total`, `limit > 0`. -/
def ceilDiv (total limit : Nat) : Nat := (total + limit - 1) / limit

/-- `main.read_businesses`: page via `crud.get_businesses`, `total` via
`crud.get_businesses_count` with the same filters and no pagination. -/
def read_businesses (db : DB) (skip limit : Nat)
    (search industry province city account_status : Option String) : BusinessList :=
  let businesses := get_businesses db skip limit search industry province city account_status
  let total := get_businesses_count db search industry province city account_status
  { businesses := businesses
    total := total
    page := if limit > 0 then skip / limit + 1 else 1
    size := limit
    pages := if limit > 0 then ceilDiv total limit else 0 }

/-- `main.read_services`: page via `crud.get_services`; `total` is the length
of `crud.get_services(db, service_type=..., status=..., business_id=...)`,
i.e. a call that leaves `skip`/`limit` at their DEFAULTS `0`/`100`, so the
count is capped at 100 rows. -/
def read_services (db : DB) (skip limit : Nat)
    (service_type status business_id : Option String) : ServiceList :=
  let services := get_services db skip limit service_type status business_id
  let total := (get_services db 0 100 service_type status business_id).length
  { services := services
    total := total
    page := if limit > 0 then skip / limit + 1 else 1
    size := limit
    pages := if limit > 0 then ceilDiv total limit else 0 }

/-- Outcome of the `POST /api/v1/businesses` endpoint. -/
inductive CreateBusinessResult where
  | created (db : DB) (row : Business)
  | duplicateIdError
  | storeFailure
deriving DecidableEq, Repr

/-- The endpoint's and crud's identifier resolution for a creation payload:
both `main.create_business`'s guard `hasattr(business, 'id') and business.id`
and crud's `business.id if hasattr(business, 'id') else None` read an `id`
attribute that `schemas.BusinessCreate` does not declare, so `hasattr` is
`False` and the resolved identifier is `None`. -/
def createIdAttr (_ : BusinessCreate) : Option String := none

/-- `main.create_business` (POST endpoint): the duplicate-identifier guard
runs only when `createIdAttr` yields a truthy id (it never does), then
delegates to `crud.create_business` with the same resolved identifier; a
store-level failure surfaces as `storeFailure` with nothing persisted. -/
def create_business_route (db : DB) (p : BusinessCreate) : CreateBusinessResult :=
  match createIdAttr p with
  | some bid =>
      if (get_business db bid).isSome then CreateBusinessResult.duplicateIdError
      else
        match create_business db (some bid) p with
        | some db2 => CreateBusinessResult.created db2 (newBusinessRow bid p)
        | none => CreateBusinessResult.storeFailure
  | none =>
      match create_business db none p with
      | some db2 => CreateBusinessResult.created db2 (newBusinessRow "" p)
      | none => CreateBusinessResult.storeFailure

/-! ## Concrete stores and payloads used as test fixtures -/

/-- A business row fixture with the given identity and derived total. -/
def mkBiz (bid ind prov cty status : String) (total : Rat) : Business :=
  { id := bid
    company_name := "Co" ++ bid
    industry := ind
    employee_count := 10
    annual_revenue := 1000
    street_number := 1
    street_name := "Main"
    city := cty
    province := prov
    postal_code := "A1A 1A1"
    country := "Canada"
    phone := "555-0100"
    email := "info@" ++ bid ++ ".ca"
    website := "https://" ++ bid ++ ".ca"
    bell_customer_since := "2020-01-01"
    account_manager := "Avery"
    total_monthly_revenue := total
    payment_method := "credit_card"
    account_status := status
    last_contact_date := "2024-01-01"
    notes := "" }

/-- A service row fixture. -/
def mkSvc (sid : Nat) (bid typ status : String) (price : Rat) : Service :=
  { id := sid
    business_id := bid
    service_type := typ
    service_name := typ ++ " plan"
    monthly_price := price
    details := [("speed", "1G")]
    contract_start := "2023-01-01"
    contract_end := "2025-01-01"
    status := status }

/-- A service creation payload fixture. -/
def mkSvcCreate (typ : String) (price : Rat) : ServiceCreate :=
  { service_type := typ
    service_name := typ ++ " plan"
    monthly_price := price
    details := [("speed", "1G")]
    contract_start := "2023-01-01"
    contract_end := "2025-01-01"
    status := "active" }

/-- A business creation payload fixture. -/
def mkBizCreate (nm : String) (svcs : List ServiceCreate) : BusinessCreate :=
  { company_name := nm
    industry := "Technology"
    employee_count := 25
    annual_revenue := 500000
    street_number := 10
    street_name := "King"
    city := "Toronto"
    province := "ON"
    postal_code := "M5H 1A1"
    country := "Canada"
    phone := "555-0101"
    email := "hello@acme.ca"
    website := "https://acme.ca"
    bell_customer_since := "2021-06-01"
    account_manager := "Avery"
    payment_method := "invoice"
    account_status := "active"
    last_contact_date := "2024-02-01"
    notes := "new"
    services := svcs }

/-- Store with businesses `A` (owning service 1, price 10) and `B` (no
services); the revenue invariant holds. -/
def exDb1 : DB :=
  { businesses := [mkBiz "A" "Technology" "ON" "Toronto" "active" 10,
                   mkBiz "B" "Healthcare" "QC" "Montreal" "active" 0]
    services := [mkSvc 1 "A" "Internet" "active" 10]
    next_service_id := 2 }

/-- Store with zero businesses but a (dangling) service row. -/
def exDb0 : DB :=
  { businesses := []
    services := [mkSvc 1 "X" "Internet" "active" 5]
    next_service_id := 2 }

/-- Store whose only business owns 101 services of price 2 each. -/
def exDb101 : DB :=
  { businesses := [mkBiz "A" "Technology" "ON" "Toronto" "active" 202]
    services := (List.range 101).map (fun n => mkSvc n "A" "Internet" "active" 2)
    next_service_id := 101 }

/-- The unvalidated mapping that reassigns a service's owner. -/
def c1MoveUpd : ServiceUpdate := { business_id := some "B" }

/-- The store produced by moving service 1 from business `A` to business `B`
through `crud.update_service`. -/
def c1MovedDb : DB :=
  ((update_service exDb1 1 c1MoveUpd).getD (mkSvc 0 "" "" "" 0, exDb1)).2

/-- The business row of `exDb1` with identifier `A`. -/
def c7bA : Business := mkBiz "A" "Technology" "ON" "Toronto" "active" 10

/-- A partial update payload touching two fields. -/
def c7u : BusinessUpdate := { company_name := some "NewCo", city := some "Ottawa" }

/-- The row produced by applying `c7u` to `c7bA`. -/
def c7b2 : Business := applyBusinessUpdate c7u c7bA

/-- The store produced by `crud.update_business exDb1 "A" c7u`. -/
def c7db2 : DB :=
  { exDb1 with businesses := updateFirstBusiness "A" (fun _ => c7b2) exDb1.businesses }

/-! ## Theorems -/

theorem servicesSum_nil (x : String) : servicesSum [] x = 0 := rfl

theorem servicesSum_cons (a : Service) (l : List Service) (x : String) :
    servicesSum (a :: l) x =
      (if a.business_id = x then a.monthly_price else 0) + servicesSum l x := by
  by_cases h : a.business_id = x
  · simp [servicesSum, List.filter_cons, h]
  · simp [servicesSum, List.filter_cons, h]

theorem servicesSum_append (l1 l2 : List Service) (x : String) :
    servicesSum (l1 ++ l2) x = servicesSum l1 x + servicesSum l2 x := by
  simp [servicesSum, List.filter_append]

theorem servicesSum_eq_zero (l : List Service) (x : String)
    (h : ∀ s ∈ l, s.business_id ≠ x) : servicesSum l x = 0 := by
  induction l with
  | nil => rfl
  | cons a t ih =>
      rw [servicesSum_cons, if_neg (h a (List.mem_cons_self a t)),
        ih (fun s hs => h s (List.mem_cons_of_mem a hs))]
      ring

/-- After `update_business_revenue`-style replacement, the whole store is
consistent provided every business other than the reconciled one already
was, and business identifiers are unique (the primary-key constraint). -/
theorem updateFirstBusiness_invariant (svcs : List Service) (bid : String)
    (bs : List Business) (hnd : (bs.map (fun b => b.id)).Nodup)
    (h : ∀ b ∈ bs, b.id ≠ bid → b.total_monthly_revenue = servicesSum svcs b.id) :
    ∀ b ∈ updateFirstBusiness bid
        (fun x => { x with total_monthly_revenue := servicesSum svcs bid }) bs,
      b.total_monthly_revenue = servicesSum svcs b.id := by
  induction bs with
  | nil => intro b hb; simp [updateFirstBusiness] at hb
  | cons a t ih =>
      intro b hb
      rw [List.map_cons, List.nodup_cons] at hnd
      simp only [updateFirstBusiness] at hb
      by_cases ha : a.id = bid
      · rw [if_pos (by simpa using ha)] at hb
        rcases List.mem_cons.mp hb with hb1 | hb1
        · subst hb1; simpa using ha.symm ▸ rfl
        · refine h b (List.mem_cons_of_mem a hb1) ?_
          intro hbid
          exact hnd.1 (by
            rw [← ha] at hbid
            exact (List.mem_map.mpr ⟨b, hb1, hbid⟩))
      · rw [if_neg (by simpa using ha)] at hb
        rcases List.mem_cons.mp hb with hb1 | hb1
        · subst hb1; exact h b (List.mem_cons_self b t) ha
        · exact ih hnd.2 (fun x hx hxid => h x (List.mem_cons_of_mem a hx) hxid) b hb1

/-- C10: in every listing and count operation, a filter supplied as the empty
string behaves exactly like an absent filter — with `search=""`,
`industry=""`, `province=""`, `city=""`, `account_status=""`,
`service_type=""`, `status=""` or `business_id=""` no restriction is
applied, the result equals the result with that filter absent, and hence
rows whose stored field is the empty string are never singled out by an
empty-string equality filter. -/
theorem c10_empty_string_filter_is_absent (db : DB) (skip limit : Nat)
    (s i p c a typ st bid : Option String) :
    (get_businesses db skip limit (some "") i p c a =
       get_businesses db skip limit none i p c a) ∧
    (get_businesses db skip limit s (some "") p c a =
       get_businesses db skip limit s none p c a) ∧
    (get_businesses db skip limit s i (some "") c a =
       get_businesses db skip limit s i none c a) ∧
    (get_businesses db skip limit s i p (some "") a =
       get_businesses db skip limit s i p none a) ∧
    (get_businesses db skip limit s i p c (some "") =
       get_businesses db skip limit s i p c none) ∧
    (get_businesses_count db (some "") i p c a = get_businesses_count db none i p c a) ∧
    (get_businesses_count db s (some "") p c a = get_businesses_count db s none p c a) ∧
    (get_businesses_count db s i (some "") c a = get_businesses_count db s i none c a) ∧
    (get_businesses_count db s i p (some "") a = get_businesses_count db s i p none a) ∧
    (get_businesses_count db s i p c (some "") = get_businesses_count db s i p c none) ∧
    (get_services db skip limit (some "") st bid = get_services db skip limit none st bid) ∧
    (get_services db skip limit typ (some "") bid = get_services db skip limit typ none bid) ∧
    (get_services db skip limit typ st (some "") = get_services db skip limit typ st none) :=
  ⟨rfl, rfl, rfl, rfl, rfl, rfl, rfl, rfl, rfl, rfl, rfl, rfl, rfl⟩

/-- C2, counterexample: on a store with two matching businesses, the listing
with `limit = 0` returns the empty page, not the whole filtered set
(SQL `LIMIT 0` selects zero rows); likewise for services. -/
theorem c2_counterexample :
    get_businesses exDb1 0 0 none none none none none = [] ∧
    get_businesses_count exDb1 none none none none none = 2 ∧
    get_services exDb1 0 0 none none none = [] ∧
    (exDb1.services.filter (serviceMatches none none none)).length = 1 := by
  refine ⟨rfl, rfl, rfl, rfl⟩

/-- C2 (amended): calling the business or service listing with `limit = 0`
does not raise a fault, and returns the EMPTY page (zero rows), not the
entire filtered set. -/
theorem c2_amended_limit_zero_returns_empty (db : DB) (skip : Nat)
    (s i p c a typ st bid : Option String) :
    get_businesses db skip 0 s i p c a = [] ∧ get_services db skip 0 typ st bid = [] := by
  constructor <;> simp [get_businesses, get_services]

/-- C5: with zero business rows, customer analytics'
`average_services_per_customer`, the combined summary's
`average_revenue_per_customer`, and revenue analytics' total and average
monthly revenue are all `0`; the operations are total (no division fault). -/
theorem c5_zero_customers_analytics (db : DB) (h : db.businesses = []) :
    (get_customer_analytics db).average_services_per_customer = 0 ∧
    (get_analytics_summary db).average_revenue_per_customer = 0 ∧
    (get_revenue_analytics db).total_monthly_revenue = 0 ∧
    (get_revenue_analytics db).average_monthly_revenue = 0 := by
  refine ⟨?_, ?_, ?_, ?_⟩ <;>
    simp [get_customer_analytics, get_analytics_summary, get_revenue_analytics, h]

/-- C5 witness: the zero-business store `exDb0` (which still has a dangling
service row) satisfies the hypothesis and all four conclusions. -/
theorem c5_witness :
    exDb0.businesses = [] ∧
    ((get_customer_analytics exDb0).average_services_per_customer = 0 ∧
     (get_analytics_summary exDb0).average_revenue_per_customer = 0 ∧
     (get_revenue_analytics exDb0).total_monthly_revenue = 0 ∧
     (get_revenue_analytics exDb0).average_monthly_revenue = 0) :=
  ⟨rfl, c5_zero_customers_analytics exDb0 rfl⟩

theorem appendServices_businesses (bid : String) (svcs : List ServiceCreate) (db : DB) :
    (appendServices bid svcs db).businesses = db.businesses := by
  induction svcs generalizing db with
  | nil => rfl
  | cons sc rest ih => rw [appendServices, ih]

/-- Inserting the initial services of a new business adds exactly the payload
prices to the owner's service sum and nothing to anyone else's. -/
theorem appendServices_sum (bid : String) (svcs : List ServiceCreate) (db : DB) (x : String) :
    servicesSum (appendServices bid svcs db).services x =
      servicesSum db.services x +
        (if x = bid then (svcs.map (fun s => s.monthly_price)).sum else 0) := by
  induction svcs generalizing db with
  | nil => simp [appendServices]
  | cons sc rest ih =>
      rw [appendServices, ih]
      simp only [servicesSum_append, servicesSum_cons, servicesSum_nil, newServiceRow,
        List.map_cons, List.sum_cons]
      by_cases hx : x = bid
      · subst hx; simp; ring
      · rw [if_neg hx, if_neg hx, if_neg (fun h => hx h.symm)]; ring

theorem servicesSum_updateFirstService (sid : Nat) (s2 : Service) (ss : List Service)
    (s : Service) (hfind : ss.find? (fun t => t.id == sid) = some s)
    (hbid : s2.business_id = s.business_id) (x : String) (hx : x ≠ s.business_id) :
    servicesSum (updateFirstService sid (fun _ => s2) ss) x = servicesSum ss x := by
  induction ss with
  | nil => simp at hfind
  | cons a t ih =>
      by_cases ha : a.id = sid
      · rw [List.find?_cons_of_pos _ (by simpa using ha)] at hfind
        rw [updateFirstService, if_pos (by simpa using ha)]
        obtain rfl : a = s := by injection hfind
        rw [servicesSum_cons, servicesSum_cons,
          if_neg (fun h : s2.business_id = x => hx (hbid ▸ h.symm)),
          if_neg (fun h : a.business_id = x => hx h.symm)]
      · rw [List.find?_cons_of_neg _ (by simpa using ha)] at hfind
        rw [updateFirstService, if_neg (by simpa using ha)]
        rw [servicesSum_cons, servicesSum_cons, ih hfind]

theorem servicesSum_removeFirstService (sid : Nat) (ss : List Service)
    (s : Service) (hfind : ss.find? (fun t => t.id == sid) = some s)
    (x : String) (hx : x ≠ s.business_id) :
    servicesSum (removeFirstService sid ss) x = servicesSum ss x := by
  induction ss with
  | nil => simp at hfind
  | cons a t ih =>
      by_cases ha : a.id = sid
      · rw [List.find?_cons_of_pos _ (by simpa using ha)] at hfind
        rw [removeFirstService, if_pos (by simpa using ha)]
        obtain rfl : a = s := by injection hfind
        rw [servicesSum_cons, if_neg (fun h : a.business_id = x => hx h.symm)]
        ring
      · rw [List.find?_cons_of_neg _ (by simpa using ha)] at hfind
        rw [removeFirstService, if_neg (by simpa using ha)]
        rw [servicesSum_cons, servicesSum_cons, ih hfind]

/-- Reconciling `bid` restores the store-wide invariant as long as every
other business row was already consistent. -/
theorem revenueInvariant_update_business_revenue (db : DB) (bid : String)
    (hnd : (db.businesses.map (fun b => b.id)).Nodup)
    (h : ∀ b ∈ db.businesses, b.id ≠ bid →
        b.total_monthly_revenue = servicesSum db.services b.id) :
    revenueInvariant (update_business_revenue db bid) := by
  intro b hb
  exact updateFirstBusiness_invariant db.services bid db.businesses hnd h b hb

/-- `crud.create_business` with a fresh identifier preserves the revenue
invariant: the new row's precomputed total equals the sum of its freshly
inserted services, and no other business's service set changes. -/
theorem c1_create_business_preserves (db : DB) (bid : String) (p : BusinessCreate)
    (db2 : DB) (hinv : revenueInvariant db)
    (hfreshB : ∀ b ∈ db.businesses, b.id ≠ bid)
    (hfreshS : ∀ s ∈ db.services, s.business_id ≠ bid)
    (hc : create_business db (some bid) p = some db2) :
    revenueInvariant db2 := by
  rw [create_business] at hc
  split at hc
  · exact absurd hc (by simp)
  · have hdb2 : appendServices bid p.services (create_business_commit1 bid p db) = db2 := by
      injection hc
    have hbs : db2.businesses = db.businesses ++ [newBusinessRow bid p] := by
      rw [← hdb2, appendServices_businesses]; rfl
    have hsum : ∀ x, servicesSum db2.services x =
        servicesSum db.services x +
          (if x = bid then (p.services.map (fun s => s.monthly_price)).sum else 0) := by
      intro x
      rw [← hdb2, appendServices_sum]
      rfl
    intro b hb
    rw [hbs] at hb
    rcases List.mem_append.mp hb with h1 | h1
    · have hne := hfreshB b h1
      rw [hsum, if_neg hne, hinv b h1]
      ring
    · have hb1 : b = newBusinessRow bid p := by simpa using h1
      subst hb1
      have hid : (newBusinessRow bid p).id = bid := rfl
      rw [hsum, hid, if_pos rfl, servicesSum_eq_zero db.services bid hfreshS]
      show (p.services.map (fun s => s.monthly_price)).sum = _
      ring

/-- `crud.create_service` preserves the revenue invariant: the reconciliation
step recomputes the owner from the full post-insert service set, and the new
row contributes to no other business. -/
theorem c1_create_service_preserves (db : DB) (sc : ServiceCreate) (bid : String)
    (hinv : revenueInvariant db)
    (hnd : (db.businesses.map (fun b => b.id)).Nodup) :
    revenueInvariant (create_service db sc bid).2 := by
  refine revenueInvariant_update_business_revenue
    (create_service_commit1 db sc bid).2 bid hnd ?_
  intro b hb hne
  show b.total_monthly_revenue =
    servicesSum (db.services ++ [newServiceRow bid db.next_service_id sc]) b.id
  rw [servicesSum_append, servicesSum_cons, servicesSum_nil,
    if_neg (fun h : (newServiceRow bid db.next_service_id sc).business_id = b.id =>
      hne (by simpa [newServiceRow] using h.symm))]
  rw [hinv b hb]
  ring

/-- `crud.update_service` with a field mapping that does not reassign
`business_id` preserves the revenue invariant. -/
theorem c1_update_service_preserves (db : DB) (sid : Nat) (u : ServiceUpdate)
    (s2 : Service) (db2 : DB) (hinv : revenueInvariant db)
    (hnd : (db.businesses.map (fun b => b.id)).Nodup)
    (hu : u.business_id = none)
    (hc : update_service db sid u = some (s2, db2)) :
    revenueInvariant db2 := by
  rw [update_service, update_service_commit1] at hc
  cases hfind : get_service db sid with
  | none => rw [hfind] at hc; exact absurd hc (by simp)
  | some s =>
      rw [hfind] at hc
      simp only [Option.some.injEq, Prod.mk.injEq] at hc
      obtain ⟨hs2, hdb2⟩ := hc
      have hbid : (applyServiceUpdate u s).business_id = s.business_id := by
        simp [applyServiceUpdate, hu]
      subst hdb2
      refine revenueInvariant_update_business_revenue
        { businesses := db.businesses,
          services := updateFirstService sid (fun _ => applyServiceUpdate u s) db.services,
          next_service_id := db.next_service_id }
        (applyServiceUpdate u s).business_id hnd ?_
      intro b hb hne
      rw [hbid] at hne
      show b.total_monthly_revenue =
        servicesSum (updateFirstService sid (fun _ => applyServiceUpdate u s) db.services) b.id
      rw [servicesSum_updateFirstService sid (applyServiceUpdate u s) db.services s hfind
        hbid b.id (fun h => hne (h ▸ rfl))]
      exact hinv b hb

/-- `crud.delete_service` preserves the revenue invariant. -/
theorem c1_delete_service_preserves (db : DB) (sid : Nat)
    (hinv : revenueInvariant db)
    (hnd : (db.businesses.map (fun b => b.id)).Nodup) :
    revenueInvariant (delete_service db sid).2 := by
  rw [delete_service, delete_service_commit1]
  cases hfind : get_service db sid with
  | none => exact hinv
  | some s =>
      refine revenueInvariant_update_business_revenue _ s.business_id hnd ?_
      intro b hb hne
      show b.total_monthly_revenue = servicesSum (removeFirstService sid db.services) b.id
      rw [servicesSum_removeFirstService sid db.services s hfind b.id
        (fun h => hne (h.symm ▸ rfl))]
      exact hinv b hb

/-- The fixture store `exDb1` satisfies the revenue invariant. -/
theorem revenueInvariant_exDb1 : revenueInvariant exDb1 := by
  intro b hb
  have hAB : ¬ (("A" : String) = "B") := by decide
  simp only [exDb1, List.mem_cons, List.not_mem_nil, or_false] at hb
  rcases hb with rfl | rfl <;>
    norm_num [exDb1, mkBiz, mkSvc, servicesSum, List.filter_cons, List.filter_nil, hAB]

/-- Evaluation of the ownership-moving update: business `A` keeps its stale
total `10`, business `B` is reconciled to `10`. -/
theorem c1MovedDb_businesses :
    c1MovedDb.businesses = [mkBiz "A" "Technology" "ON" "Toronto" "active" 10,
      mkBiz "B" "Healthcare" "QC" "Montreal" "active" 10] := by
  have hAB : ¬ (("A" : String) = "B") := by decide
  have hBA : ¬ (("B" : String) = "A") := by decide
  norm_num [c1MovedDb, update_service, update_service_commit1, get_service, exDb1,
    c1MoveUpd, applyServiceUpdate, update_business_revenue, updateFirstBusiness,
    updateFirstService, servicesSum, mkSvc, mkBiz, List.find?, List.filter_cons,
    List.filter_nil, hAB, hBA]

/-- Evaluation of the ownership-moving update: the single service row now
carries `business_id = "B"`. -/
theorem c1MovedDb_services :
    c1MovedDb.services = [mkSvc 1 "B" "Internet" "active" 10] := by
  have hAB : ¬ (("A" : String) = "B") := by decide
  have hBA : ¬ (("B" : String) = "A") := by decide
  norm_num [c1MovedDb, update_service, update_service_commit1, get_service, exDb1,
    c1MoveUpd, applyServiceUpdate, update_business_revenue, updateFirstBusiness,
    updateFirstService, servicesSum, mkSvc, mkBiz, List.find?, List.filter_cons,
    List.filter_nil, hAB, hBA]

/-- C1, counterexample: on a store satisfying the revenue invariant,
`crud.update_service` applied to the unvalidated mapping
`{"business_id": "B"}` succeeds, but the resulting store violates the
invariant — the reconciler runs only for the NEW owner (read after the
`setattr` loop), leaving the former owner `A` with a stale total of 10
while it owns no services. -/
theorem c1_counterexample :
    revenueInvariant exDb1 ∧
    (update_service exDb1 1 c1MoveUpd).isSome = true ∧
    ¬ revenueInvariant c1MovedDb := by
  refine ⟨revenueInvariant_exDb1, rfl, ?_⟩
  intro hinv
  have hmem : mkBiz "A" "Technology" "ON" "Toronto" "active" 10 ∈ c1MovedDb.businesses := by
    rw [c1MovedDb_businesses]
    exact List.mem_cons_self _ _
  have h10 := hinv _ hmem
  have hBA : ¬ (("B" : String) = "A") := by decide
  rw [c1MovedDb_services] at h10
  norm_num [mkBiz, mkSvc, servicesSum, List.filter_cons, List.filter_nil, hBA] at h10

/-- C1 (amended): after business creation under a fresh identifier, service
creation, service deletion, and service update whose field mapping does not
reassign `business_id`, every business row's `total_monthly_revenue` equals
the sum of `monthly_price` over the service rows owned by it (0 when none) —
given that the invariant held before and business identifiers are unique
(the primary-key constraint).  The update case excludes mappings that move a
service between owners: those break the invariant (see the counterexample). -/
theorem c1_amended_revenue_invariant (db : DB)
    (hinv : revenueInvariant db)
    (hnd : (db.businesses.map (fun b => b.id)).Nodup) :
    (∀ bid p db2, (∀ b ∈ db.businesses, b.id ≠ bid) →
        (∀ s ∈ db.services, s.business_id ≠ bid) →
        create_business db (some bid) p = some db2 → revenueInvariant db2) ∧
    (∀ sc bid, revenueInvariant (create_service db sc bid).2) ∧
    (∀ sid u s2 db2, u.business_id = none →
        update_service db sid u = some (s2, db2) → revenueInvariant db2) ∧
    (∀ sid, revenueInvariant (delete_service db sid).2) := by
  refine ⟨?_, ?_, ?_, ?_⟩
  · exact fun bid p db2 hfB hfS hc =>
      c1_create_business_preserves db bid p db2 hinv hfB hfS hc
  · exact fun sc bid => c1_create_service_preserves db sc bid hinv hnd
  · exact fun sid u s2 db2 hu hc =>
      c1_update_service_preserves db sid u s2 db2 hinv hnd hu hc
  · exact fun sid => c1_delete_service_preserves db sid hinv hnd

/-- C1 witness: the amended theorem applied to the concrete store `exDb1`,
instantiating the service-creation conjunct at a new `TV` service for
business `B`. -/
theorem c1_witness :
    (revenueInvariant exDb1 ∧ (exDb1.businesses.map (fun b => b.id)).Nodup) ∧
    revenueInvariant (create_service exDb1 (mkSvcCreate "TV" 20) "B").2 :=
  ⟨⟨revenueInvariant_exDb1, by decide⟩,
   (c1_amended_revenue_invariant exDb1 revenueInvariant_exDb1
     (by decide)).2.1 (mkSvcCreate "TV" 20) "B"⟩

/-- C4, counterexample: `crud.create_service` commits the service row in a
first transaction and reconciles revenue in a second; the state after the
first commit is itself committed, differs from the pre-operation store, and
violates the revenue invariant — so a failure in the reconciliation step
does NOT leave the store as it was before the operation began. -/
theorem c4_counterexample :
    revenueInvariant exDb1 ∧
    (create_service_commit1 exDb1 (mkSvcCreate "TV" 20) "B").2 ≠ exDb1 ∧
    ¬ revenueInvariant (create_service_commit1 exDb1 (mkSvcCreate "TV" 20) "B").2 := by
  refine ⟨revenueInvariant_exDb1, ?_, ?_⟩
  · intro h
    have hlen := congrArg (fun d => d.services.length) h
    simp [create_service_commit1, exDb1] at hlen
  · intro hinv
    have hmem : mkBiz "B" "Healthcare" "QC" "Montreal" "active" 0 ∈
        (create_service_commit1 exDb1 (mkSvcCreate "TV" 20) "B").2.businesses := by
      simp [create_service_commit1, exDb1]
    have h0 := hinv _ hmem
    have hAB : ¬ (("A" : String) = "B") := by decide
    norm_num [create_service_commit1, exDb1, newServiceRow, mkSvcCreate, servicesSum,
      mkBiz, mkSvc, List.filter_cons, List.filter_nil, List.filter_append, hAB] at h0

/-- C4 (amended): the multi-step mutations are NOT one atomic unit.  Each
commit is atomic, but `create_business` commits the business row before its
services, and the service mutations commit the row change before the revenue
reconciliation; the state left by the first commit differs from the
pre-operation store and violates the revenue invariant (a service persisted
while its owner's total is stale; a business persisted with precomputed
total but none of its services), so a failure in the second step surfaces a
partial state rather than rolling the whole operation back. -/
theorem c4_amended_intermediate_commits (db : DB) (sc : ServiceCreate) (bid bid2 : String)
    (p : BusinessCreate) (b : Business)
    (hinv : revenueInvariant db)
    (hb : b ∈ db.businesses) (hbid : b.id = bid) (hp : sc.monthly_price ≠ 0)
    (hfS : ∀ s ∈ db.services, s.business_id ≠ bid2)
    (hps : (p.services.map (fun s => s.monthly_price)).sum ≠ 0) :
    ((create_service_commit1 db sc bid).2 ≠ db ∧
      ¬ revenueInvariant (create_service_commit1 db sc bid).2) ∧
    (create_business_commit1 bid2 p db ≠ db ∧
      ¬ revenueInvariant (create_business_commit1 bid2 p db)) := by
  refine ⟨⟨?_, ?_⟩, ⟨?_, ?_⟩⟩
  · intro h
    have hlen := congrArg (fun d => d.services.length) h
    simp [create_service_commit1] at hlen
  · intro hinv2
    have h2 := hinv2 b hb
    have h1 := hinv b hb
    rw [show (create_service_commit1 db sc bid).2.services =
        db.services ++ [newServiceRow bid db.next_service_id sc] from rfl,
      servicesSum_append, servicesSum_cons, servicesSum_nil,
      if_pos (show (newServiceRow bid db.next_service_id sc).business_id = b.id from
        hbid.symm ▸ rfl)] at h2
    rw [h1] at h2
    apply hp
    have := add_left_cancel (a := servicesSum db.services b.id)
      (b := (newServiceRow bid db.next_service_id sc).monthly_price + 0) (c := 0)
    simp only [newServiceRow] at h2 ⊢
    linarith [h2]
  · intro h
    have hlen := congrArg (fun d => d.businesses.length) h
    simp [create_business_commit1] at hlen
  · intro hinv2
    have hmem : newBusinessRow bid2 p ∈ (create_business_commit1 bid2 p db).businesses := by
      simp [create_business_commit1]
    have h2 := hinv2 _ hmem
    rw [show (create_business_commit1 bid2 p db).services = db.services from rfl,
      show (newBusinessRow bid2 p).id = bid2 from rfl,
      servicesSum_eq_zero db.services bid2 hfS] at h2
    exact hps h2

/-- C4 witness: the amended theorem at the concrete store `exDb1`, adding a
`TV` service to business `B` and creating a business `C` with one service. -/
theorem c4_witness :
    (revenueInvariant exDb1 ∧
     mkBiz "B" "Healthcare" "QC" "Montreal" "active" 0 ∈ exDb1.businesses ∧
     (mkBiz "B" "Healthcare" "QC" "Montreal" "active" 0).id = "B" ∧
     (mkSvcCreate "TV" 20).monthly_price ≠ 0 ∧
     (∀ s ∈ exDb1.services, s.business_id ≠ "C") ∧
     ((mkBizCreate "Acme" [mkSvcCreate "Net" 30]).services.map
        (fun s => s.monthly_price)).sum ≠ 0) ∧
    (((create_service_commit1 exDb1 (mkSvcCreate "TV" 20) "B").2 ≠ exDb1 ∧
      ¬ revenueInvariant (create_service_commit1 exDb1 (mkSvcCreate "TV" 20) "B").2) ∧
     (create_business_commit1 "C" (mkBizCreate "Acme" [mkSvcCreate "Net" 30]) exDb1 ≠ exDb1 ∧
      ¬ revenueInvariant
          (create_business_commit1 "C" (mkBizCreate "Acme" [mkSvcCreate "Net" 30]) exDb1))) :=
  ⟨⟨revenueInvariant_exDb1, by decide, by decide, by decide, by decide,
    by simp [mkBizCreate, mkSvcCreate]⟩,
   c4_amended_intermediate_commits exDb1 (mkSvcCreate "TV" 20) "B" "C"
     (mkBizCreate "Acme" [mkSvcCreate "Net" 30])
     (mkBiz "B" "Healthcare" "QC" "Montreal" "active" 0)
     revenueInvariant_exDb1 (by decide) (by decide) (by decide) (by decide)
     (by simp [mkBizCreate, mkSvcCreate])⟩

/-- C3: evaluation at the failing input.  `exDb101` holds 101 services
matching the empty filter set, and the business-listing total is the true
filtered count (1 business); but the service listing reports `total = 100`,
because `main.read_services` computes it as the length of a
`crud.get_services` call that leaves the default `limit=100` in place —
not the size of the whole filtered set. -/
theorem c3_service_total_capped_at_default_limit :
    (read_services exDb101 0 10 none none none).total = 100 ∧
    (read_services exDb101 50 10 none none none).total = 100 ∧
    (exDb101.services.filter (serviceMatches none none none)).length = 101 ∧
    (read_businesses exDb101 0 10 none none none none none).total = 1 := by
  refine ⟨rfl, rfl, rfl, rfl⟩

/-- Splits the composed business filter into its five conjuncts. -/
theorem businessMatches_and (s i p c a : Option String) (b : Business) :
    businessMatches s i p c a b = true ↔
      ((if optActive s then searchMatches (s.getD "") b else true) = true ∧
       (if optActive i then b.industry == i.getD "" else true) = true ∧
       (if optActive p then b.province == p.getD "" else true) = true ∧
       (if optActive c then b.city == c.getD "" else true) = true ∧
       (if optActive a then b.account_status == a.getD "" else true) = true) := by
  simp [businessMatches, Bool.and_eq_true, and_assoc]

/-- Removing any single filter from the composed business predicate keeps
every previously matching row matching. -/
theorem businessMatches_drop_one (s i p c a : Option String) (b : Business)
    (h : businessMatches s i p c a b = true) :
    businessMatches none i p c a b = true ∧
    businessMatches s none p c a b = true ∧
    businessMatches s i none c a b = true ∧
    businessMatches s i p none a b = true ∧
    businessMatches s i p c none b = true := by
  rw [businessMatches_and] at h
  obtain ⟨h1, h2, h3, h4, h5⟩ := h
  refine ⟨?_, ?_, ?_, ?_, ?_⟩ <;> rw [businessMatches_and]
  · exact ⟨rfl, h2, h3, h4, h5⟩
  · exact ⟨h1, rfl, h3, h4, h5⟩
  · exact ⟨h1, h2, rfl, h4, h5⟩
  · exact ⟨h1, h2, h3, rfl, h5⟩
  · exact ⟨h1, h2, h3, h4, rfl⟩

/-- C8: present listing filters compose by logical AND — every row of a page
listed with both `search` and `industry` supplied satisfies the search
disjunction AND the industry equality — and removing any one filter never
shrinks the matching set: matching is pointwise monotone and the reported
total (`get_businesses_count`) can only decrease when a filter is added. -/
theorem c8_filter_composition (db : DB) (skip limit : Nat) (s0 i0 : String)
    (hs : s0 ≠ "") (hi : i0 ≠ "") (s i p c a : Option String) :
    (∀ b ∈ get_businesses db skip limit (some s0) (some i0) p c a,
        searchMatches s0 b = true ∧ b.industry = i0) ∧
    (∀ b : Business, businessMatches s i p c a b = true →
        businessMatches none i p c a b = true ∧
        businessMatches s none p c a b = true ∧
        businessMatches s i none c a b = true ∧
        businessMatches s i p none a b = true ∧
        businessMatches s i p c none b = true) ∧
    (get_businesses_count db s i p c a ≤ get_businesses_count db none i p c a) ∧
    (get_businesses_count db s i p c a ≤ get_businesses_count db s none p c a) ∧
    (get_businesses_count db s i p c a ≤ get_businesses_count db s i none c a) ∧
    (get_businesses_count db s i p c a ≤ get_businesses_count db s i p none a) ∧
    (get_businesses_count db s i p c a ≤ get_businesses_count db s i p c none) := by
  have hs' : optActive (some s0) = true := by
    simp only [optActive, Bool.not_eq_true', beq_eq_false_iff_ne, ne_eq]
    exact hs
  have hi' : optActive (some i0) = true := by
    simp only [optActive, Bool.not_eq_true', beq_eq_false_iff_ne, ne_eq]
    exact hi
  have mono : ∀ pf qf : Business → Bool, (∀ x, pf x = true → qf x = true) →
      (db.businesses.filter pf).length ≤ (db.businesses.filter qf).length := by
    intro pf qf hpq
    exact (List.monotone_filter_right db.businesses hpq).length_le
  refine ⟨?_, ?_, ?_, ?_, ?_, ?_, ?_⟩
  · intro b hb
    have hb1 : b ∈ db.businesses.filter (businessMatches (some s0) (some i0) p c a) :=
      List.drop_subset _ _ (List.take_subset _ _ hb)
    have hm := (List.mem_filter.mp hb1).2
    rw [businessMatches_and] at hm
    obtain ⟨h1, h2, _, _, _⟩ := hm
    rw [hs', if_pos rfl] at h1
    rw [hi', if_pos rfl] at h2
    exact ⟨h1, by simpa using h2⟩
  · exact fun b hb => businessMatches_drop_one s i p c a b hb
  · exact mono _ _ (fun x hx => (businessMatches_drop_one s i p c a x hx).1)
  · exact mono _ _ (fun x hx => (businessMatches_drop_one s i p c a x hx).2.1)
  · exact mono _ _ (fun x hx => (businessMatches_drop_one s i p c a x hx).2.2.1)
  · exact mono _ _ (fun x hx => (businessMatches_drop_one s i p c a x hx).2.2.2.1)
  · exact mono _ _ (fun x hx => (businessMatches_drop_one s i p c a x hx).2.2.2.2)

/-- C8 witness: the theorem applied to the concrete store `exDb1` with
`search="coa"` and `industry="Technology"`. -/
theorem c8_witness :
    ("coa" ≠ "" ∧ "Technology" ≠ "") ∧
    ((∀ b ∈ get_businesses exDb1 0 10 (some "coa") (some "Technology") none none none,
        searchMatches "coa" b = true ∧ b.industry = "Technology") ∧
     (∀ b : Business, businessMatches (some "coa") (some "Technology") none none none b = true →
        businessMatches none (some "Technology") none none none b = true ∧
        businessMatches (some "coa") none none none none b = true ∧
        businessMatches (some "coa") (some "Technology") none none none b = true ∧
        businessMatches (some "coa") (some "Technology") none none none b = true ∧
        businessMatches (some "coa") (some "Technology") none none none b = true) ∧
     (get_businesses_count exDb1 (some "coa") (some "Technology") none none none ≤
        get_businesses_count exDb1 none (some "Technology") none none none) ∧
     (get_businesses_count exDb1 (some "coa") (some "Technology") none none none ≤
        get_businesses_count exDb1 (some "coa") none none none none) ∧
     (get_businesses_count exDb1 (some "coa") (some "Technology") none none none ≤
        get_businesses_count exDb1 (some "coa") (some "Technology") none none none) ∧
     (get_businesses_count exDb1 (some "coa") (some "Technology") none none none ≤
        get_businesses_count exDb1 (some "coa") (some "Technology") none none none) ∧
     (get_businesses_count exDb1 (some "coa") (some "Technology") none none none ≤
        get_businesses_count exDb1 (some "coa") (some "Technology") none none none)) :=
  ⟨⟨by decide, by decide⟩,
   c8_filter_composition exDb1 0 10 "coa" "Technology" (by decide) (by decide)
     (some "coa") (some "Technology") none none none⟩

theorem updateFirstBusiness_length (bid : String) (f : Business → Business)
    (bs : List Business) : (updateFirstBusiness bid f bs).length = bs.length := by
  induction bs with
  | nil => rfl
  | cons a t ih =>
      rw [updateFirstBusiness]
      by_cases h : a.id = bid
      · rw [if_pos (by simpa using h)]
        simp
      · rw [if_neg (by simpa using h), List.length_cons, List.length_cons, ih]

theorem mem_updateFirstBusiness_of_ne (bid : String) (f : Business → Business)
    (bs : List Business) (c : Business) (hc : c ∈ bs) (hne : c.id ≠ bid) :
    c ∈ updateFirstBusiness bid f bs := by
  induction bs with
  | nil => cases hc
  | cons a t ih =>
      rw [updateFirstBusiness]
      rcases List.mem_cons.mp hc with rfl | h
      · rw [if_neg (by simpa using hne)]
        exact List.mem_cons_self _ _
      · by_cases ha : a.id = bid
        · rw [if_pos (by simpa using ha)]
          exact List.mem_cons_of_mem _ h
        · rw [if_neg (by simpa using ha)]
          exact List.mem_cons_of_mem _ (ih h)

theorem mem_updateFirstBusiness_elim (bid : String) (f : Business → Business)
    (bs : List Business) (c : Business) (hc : c ∈ updateFirstBusiness bid f bs) :
    c ∈ bs ∨ ∃ d, d ∈ bs ∧ c = f d := by
  induction bs with
  | nil => cases hc
  | cons a t ih =>
      rw [updateFirstBusiness] at hc
      by_cases ha : a.id = bid
      · rw [if_pos (by simpa using ha)] at hc
        rcases List.mem_cons.mp hc with rfl | h
        · exact Or.inr ⟨a, List.mem_cons_self _ _, rfl⟩
        · exact Or.inl (List.mem_cons_of_mem _ h)
      · rw [if_neg (by simpa using ha)] at hc
        rcases List.mem_cons.mp hc with rfl | h
        · exact Or.inl (List.mem_cons_self _ _)
        · rcases ih h with h1 | ⟨d, hd, hcd⟩
          · exact Or.inl (List.mem_cons_of_mem _ h1)
          · exact Or.inr ⟨d, List.mem_cons_of_mem _ hd, hcd⟩

/-- C7: `crud.update_business` applies exactly the fields present in the
partial payload to the targeted row, leaves every unspecified field — and
always `id` and the derived `total_monthly_revenue`, which the update schema
cannot carry — at their prior values, touches no service row and no other
business row, and returns `None` (NotFound, store unchanged) when the
identifier does not exist. -/
theorem c7_update_business (db : DB) (bid : String) (u : BusinessUpdate) :
    (get_business db bid = none → update_business db bid u = none) ∧
    (∀ b b2 db2, get_business db bid = some b →
      update_business db bid u = some (b2, db2) →
      (b2.id = b.id ∧
       b2.total_monthly_revenue = b.total_monthly_revenue ∧
       b2.company_name = u.company_name.getD b.company_name ∧
       b2.industry = u.industry.getD b.industry ∧
       b2.employee_count = u.employee_count.getD b.employee_count ∧
       b2.annual_revenue = u.annual_revenue.getD b.annual_revenue ∧
       b2.street_number = u.street_number.getD b.street_number ∧
       b2.street_name = u.street_name.getD b.street_name ∧
       b2.city = u.city.getD b.city ∧
       b2.province = u.province.getD b.province ∧
       b2.postal_code = u.postal_code.getD b.postal_code ∧
       b2.country = u.country.getD b.country ∧
       b2.phone = u.phone.getD b.phone ∧
       b2.email = u.email.getD b.email ∧
       b2.website = u.website.getD b.website ∧
       b2.bell_customer_since = u.bell_customer_since.getD b.bell_customer_since ∧
       b2.account_manager = u.account_manager.getD b.account_manager ∧
       b2.payment_method = u.payment_method.getD b.payment_method ∧
       b2.account_status = u.account_status.getD b.account_status ∧
       b2.last_contact_date = u.last_contact_date.getD b.last_contact_date ∧
       b2.notes = u.notes.getD b.notes) ∧
      db2.services = db.services ∧
      db2.next_service_id = db.next_service_id ∧
      db2.businesses.length = db.businesses.length ∧
      (∀ c ∈ db.businesses, c.id ≠ bid → c ∈ db2.businesses) ∧
      (∀ c ∈ db2.businesses, c = b2 ∨ c ∈ db.businesses)) := by
  constructor
  · intro h
    rw [update_business, h]
  · intro b b2 db2 hfind hupd
    rw [update_business, hfind] at hupd
    simp only [Option.some.injEq, Prod.mk.injEq] at hupd
    obtain ⟨hb2, hdb2⟩ := hupd
    subst hb2
    subst hdb2
    refine ⟨?_, rfl, rfl, ?_, ?_, ?_⟩
    · exact ⟨rfl, rfl, rfl, rfl, rfl, rfl, rfl, rfl, rfl, rfl, rfl, rfl, rfl, rfl,
        rfl, rfl, rfl, rfl, rfl, rfl, rfl⟩
    · exact updateFirstBusiness_length bid _ db.businesses
    · exact fun c hc hne => mem_updateFirstBusiness_of_ne bid _ db.businesses c hc hne
    · intro c hc
      rcases mem_updateFirstBusiness_elim bid _ db.businesses c hc with h1 | ⟨d, _, hcd⟩
      · exact Or.inr h1
      · exact Or.inl hcd

/-- C7 witness: on `exDb1`, updating business `A` with a payload setting only
`company_name` and `city` yields exactly the expected row and store frame. -/
theorem c7_witness :
    (get_business exDb1 "A" = some c7bA ∧
     update_business exDb1 "A" c7u = some (c7b2, c7db2)) ∧
    (c7b2.id = c7bA.id ∧
     c7b2.total_monthly_revenue = c7bA.total_monthly_revenue ∧
     c7b2.company_name = "NewCo" ∧
     c7b2.city = "Ottawa" ∧
     c7b2.industry = c7bA.industry ∧
     c7db2.services = exDb1.services ∧
     c7db2.businesses.length = exDb1.businesses.length) := by
  have h := (c7_update_business exDb1 "A" c7u).2 c7bA c7b2 c7db2 rfl rfl
  exact ⟨⟨rfl, rfl⟩, h.1.1, h.1.2.1, rfl, rfl, rfl, h.2.1, h.2.2.2.1⟩

theorem removeFirstBusiness_id_ne (bid : String) (bs : List Business)
    (hnd : (bs.map (fun b => b.id)).Nodup) :
    ∀ b ∈ removeFirstBusiness bid bs, b.id ≠ bid := by
  induction bs with
  | nil => intro b hb; cases hb
  | cons a t ih =>
      rw [List.map_cons, List.nodup_cons] at hnd
      intro b hb
      rw [removeFirstBusiness] at hb
      by_cases ha : a.id = bid
      · rw [if_pos (by simpa using ha)] at hb
        intro hbid
        exact hnd.1 (ha ▸ hbid ▸ List.mem_map.mpr ⟨b, hb, rfl⟩)
      · rw [if_neg (by simpa using ha)] at hb
        rcases List.mem_cons.mp hb with rfl | h
        · exact ha
        · exact ih hnd.2 b h

theorem removeFirstBusiness_length (bid : String) (bs : List Business)
    (b : Business) (hfind : bs.find? (fun x => x.id == bid) = some b) :
    (removeFirstBusiness bid bs).length + 1 = bs.length := by
  induction bs with
  | nil => simp at hfind
  | cons a t ih =>
      by_cases ha : a.id = bid
      · rw [removeFirstBusiness, if_pos (by simpa using ha)]
        rfl
      · rw [List.find?_cons_of_neg _ (by simpa using ha)] at hfind
        rw [removeFirstBusiness, if_neg (by simpa using ha), List.length_cons,
          List.length_cons, ih hfind]

theorem mem_removeFirstBusiness_of_ne (bid : String) (bs : List Business)
    (c : Business) (hc : c ∈ bs) (hne : c.id ≠ bid) :
    c ∈ removeFirstBusiness bid bs := by
  induction bs with
  | nil => cases hc
  | cons a t ih =>
      rw [removeFirstBusiness]
      rcases List.mem_cons.mp hc with rfl | h
      · rw [if_neg (by simpa using hne)]
        exact List.mem_cons_self _ _
      · by_cases ha : a.id = bid
        · rw [if_pos (by simpa using ha)]
          exact h
        · rw [if_neg (by simpa using ha)]
          exact List.mem_cons_of_mem _ (ih h)

/-- C9: `crud.delete_business` succeeds exactly when the business exists
(returning `False`/NotFound with the store untouched otherwise), and the
relationship cascade leaves zero service rows carrying the deleted
identifier while removing exactly that one business row and no service of
any other business. -/
theorem c9_delete_business (db : DB) (bid : String)
    (hnd : (db.businesses.map (fun b => b.id)).Nodup) :
    ((get_business db bid).isSome = true →
       (delete_business db bid).1 = true ∧
       (delete_business db bid).2.services.filter (fun s => s.business_id == bid) = [] ∧
       (∀ s ∈ db.services, s.business_id ≠ bid → s ∈ (delete_business db bid).2.services) ∧
       (∀ s ∈ (delete_business db bid).2.services, s ∈ db.services) ∧
       get_business (delete_business db bid).2 bid = none ∧
       (delete_business db bid).2.businesses.length + 1 = db.businesses.length ∧
       (∀ b ∈ db.businesses, b.id ≠ bid → b ∈ (delete_business db bid).2.businesses)) ∧
    ((get_business db bid).isSome = false → delete_business db bid = (false, db)) := by
  cases hfind : get_business db bid with
  | none =>
      constructor
      · intro h
        simp at h
      · intro _
        rw [delete_business, hfind]
  | some b =>
      constructor
      · intro _
        rw [delete_business, hfind]
        refine ⟨rfl, ?_, ?_, ?_, ?_, ?_, ?_⟩
        · rw [List.filter_filter]
          apply List.filter_eq_nil_iff.mpr
          intro s _
          simp
        · intro s hs hne
          exact List.mem_filter.mpr ⟨hs, by simpa using hne⟩
        · exact fun s hs => List.mem_of_mem_filter hs
        · apply List.find?_eq_none.mpr
          intro x hx
          simpa using removeFirstBusiness_id_ne bid db.businesses hnd x hx
        · exact removeFirstBusiness_length bid db.businesses b hfind
        · exact fun c hc hne => mem_removeFirstBusiness_of_ne bid db.businesses c hc hne
      · intro h
        simp at h

/-- C9 witness: deleting business `A` from `exDb1` succeeds, removes its one
service row and its business row, and afterwards no row carries `A`. -/
theorem c9_witness :
    ((exDb1.businesses.map (fun b => b.id)).Nodup ∧ (get_business exDb1 "A").isSome = true) ∧
    ((delete_business exDb1 "A").1 = true ∧
     (delete_business exDb1 "A").2.services.filter (fun s => s.business_id == "A") = [] ∧
     get_business (delete_business exDb1 "A").2 "A" = none ∧
     (delete_business exDb1 "A").2.businesses.length + 1 = exDb1.businesses.length) := by
  have h := (c9_delete_business exDb1 "A" (by decide)).1 rfl
  exact ⟨⟨by decide, rfl⟩, h.1, h.2.1, h.2.2.2.2.1, h.2.2.2.2.2.1⟩

/-- C6: evaluation of the creation endpoint.  `schemas.BusinessCreate`
declares no `id` field, so the endpoint's duplicate check
(`hasattr(business, 'id') and business.id`) is dead code and
`crud.create_business` receives `id=None`; inserting a NULL primary key
violates the `businesses.id` NOT NULL constraint, so for EVERY store and
EVERY payload the endpoint raises a store-level failure — it never raises
`DuplicateIdentifier` and never persists a business under a caller-supplied
or generated identifier. -/
theorem c6_create_business_route_always_store_failure (db : DB) (p : BusinessCreate) :
    create_business_route db p = CreateBusinessResult.storeFailure := rfl

end BellApi
